import Mathlib

/-!
Verification of the change-detection / update-orchestration core of
krackn88/hybrid-dev-beta against its natural-language specification.

The Python sources are shallowly embedded as executable Lean definitions:

* `webhook_handler.py` — webhook signature verification and the `do_POST`
  request dispatch, including the HMAC-SHA256 computation it delegates to
  Python's `hmac`/`hashlib` (implemented here in full, bytes as `Nat`).
* `github_updater.py` — its own signature check, git sync / commit command
  sequences, the `full_update_process` step ordering, and the polling loop
  body.
* `github_automator.py` — sync/commit command sequences, the polling loop
  body, and `update_changelog`.
* `polling_service.py` — `poll_and_update` and its sync command sequence.
* `github_repo_updater.py` — `verify_webhook_signature`.

Machine integers are `Nat` with explicit `% 2^32` / `% 256` where the Python
code relies on fixed-width behaviour (inside SHA-256 only). Fallible code is
returned as `Except`/`Option`: a Python exception that escapes a function is
an `Except.error` / a `none` response.
-/

/-! ## Bytes, 32-bit words, SHA-256 and HMAC-SHA256

`webhook_handler._verify_signature`, `github_updater.WebhookHandler._verify_signature`
and `github_repo_updater.verify_webhook_signature` all compute
`hmac.new(secret.encode('utf-8'), msg=payload_bytes, digestmod=hashlib.sha256).hexdigest()`.
The functions below implement that computation over `List Nat` bytes
(each invariantly `< 256`), following FIPS 180-4 / RFC 2104. -/

/-- Addition modulo 2^32. -/
def add32 (a b : Nat) : Nat := (a + b) % 4294967296

/-- Bitwise XOR (operands are already < 2^32 wherever used). -/
def xor32 (a b : Nat) : Nat := Nat.xor a b

/-- Bitwise AND. -/
def and32 (a b : Nat) : Nat := Nat.land a b

/-- Bitwise complement on 32 bits. -/
def not32 (a : Nat) : Nat := Nat.xor a 4294967295

/-- Right rotation of a 32-bit word by `k` positions. -/
def rotr32 (k x : Nat) : Nat :=
  ((x >>> k) + (x <<< (32 - k))) % 4294967296

/-- SHA-256 `Ch` function. -/
def shaCh (x y z : Nat) : Nat := xor32 (and32 x y) (and32 (not32 x) z)

/-- SHA-256 `Maj` function. -/
def shaMaj (x y z : Nat) : Nat := xor32 (xor32 (and32 x y) (and32 x z)) (and32 y z)

/-- SHA-256 big Σ0. -/
def shaS0 (x : Nat) : Nat := xor32 (xor32 (rotr32 2 x) (rotr32 13 x)) (rotr32 22 x)

/-- SHA-256 big Σ1. -/
def shaS1 (x : Nat) : Nat := xor32 (xor32 (rotr32 6 x) (rotr32 11 x)) (rotr32 25 x)

/-- SHA-256 small σ0. -/
def shas0 (x : Nat) : Nat := xor32 (xor32 (rotr32 7 x) (rotr32 18 x)) (x >>> 3)

/-- SHA-256 small σ1. -/
def shas1 (x : Nat) : Nat := xor32 (xor32 (rotr32 17 x) (rotr32 19 x)) (x >>> 10)

/-- The 64 SHA-256 round constants. -/
def shaK : List Nat :=
  [1116352408, 1899447441, 3049323471, 3921009573,
   961987163, 1508970993, 2453635748, 2870763221,
   3624381080, 310598401, 607225278, 1426881987,
   1925078388, 2162078206, 2614888103, 3248222580,
   3835390401, 4022224774, 264347078, 604807628,
   770255983, 1249150122, 1555081692, 1996064986,
   2554220882, 2821834349, 2952996808, 3210313671,
   3336571891, 3584528711, 113926993, 338241895,
   666307205, 773529912, 1294757372, 1396182291,
   1695183700, 1986661051, 2177026350, 2456956037,
   2730485921, 2820302411, 3259730800, 3345764771,
   3516065817, 3600352804, 4094571909, 275423344,
   430227734, 506948616, 659060556, 883997877,
   958139571, 1322822218, 1537002063, 1747873779,
   1955562222, 2024104815, 2227730452, 2361852424,
   2428436474, 2756734187, 3204031479, 3329325298]

/-- Working state of the SHA-256 compression function (eight 32-bit words). -/
structure Sha8 where
  a : Nat
  b : Nat
  c : Nat
  d : Nat
  e : Nat
  f : Nat
  g : Nat
  h : Nat
deriving Repr, DecidableEq

/-- SHA-256 initial hash value. -/
def shaInit : Sha8 :=
  ⟨1779033703, 3144134277, 1013904242, 2773480762,
   1359893119, 2600822924, 528734635, 1541459225⟩

/-- One SHA-256 round, consuming a round constant and a schedule word. -/
def shaRound (st : Sha8) (k w : Nat) : Sha8 :=
  let t1 := (st.h + shaS1 st.e + shaCh st.e st.f st.g + k + w) % 4294967296
  let t2 := (shaS0 st.a + shaMaj st.a st.b st.c) % 4294967296
  ⟨(t1 + t2) % 4294967296, st.a, st.b, st.c, (st.d + t1) % 4294967296, st.e, st.f, st.g⟩

/-- Big-endian 32-bit words from bytes (the 16 words of a 64-byte block). -/
def shaWords : List Nat → List Nat
  | a :: b :: c :: d :: rest => (a * 16777216 + b * 65536 + c * 256 + d) :: shaWords rest
  | _ => []

/-- Extend the message schedule by `n` words.  `ws` is kept most-recent-first,
so `w[t-2]`, `w[t-7]`, `w[t-15]`, `w[t-16]` are at positions 1, 6, 14, 15. -/
def shaExtend : Nat → List Nat → List Nat
  | 0, ws => ws
  | n + 1, ws =>
      let wNew := (ws.getD 15 0 + shas0 (ws.getD 14 0) + ws.getD 6 0 + shas1 (ws.getD 1 0)) % 4294967296
      shaExtend n (wNew :: ws)

/-- The full 64-word message schedule of one block. -/
def shaSchedule (block : List Nat) : List Nat :=
  (shaExtend 48 (shaWords block).reverse).reverse

/-- Compress one 64-byte block into the running hash. -/
def shaCompress (st : Sha8) (block : List Nat) : Sha8 :=
  let ws := shaSchedule block
  let fin := (shaK.zip ws).foldl (fun s kw => shaRound s kw.1 kw.2) st
  ⟨add32 st.a fin.a, add32 st.b fin.b, add32 st.c fin.c, add32 st.d fin.d,
   add32 st.e fin.e, add32 st.f fin.f, add32 st.g fin.g, add32 st.h fin.h⟩

/-- 8-byte big-endian encoding of the bit length. -/
def shaLen8 (n : Nat) : List Nat :=
  [(n >>> 56) % 256, (n >>> 48) % 256, (n >>> 40) % 256, (n >>> 32) % 256,
   (n >>> 24) % 256, (n >>> 16) % 256, (n >>> 8) % 256, n % 256]

/-- SHA-256 padding: append `0x80`, zeros to 56 mod 64, then the bit length. -/
def shaPad (msg : List Nat) : List Nat :=
  let len := msg.length
  let zeros := (64 + 56 - (len + 1) % 64) % 64
  msg ++ 128 :: List.replicate zeros 0 ++ shaLen8 (len * 8)

/-- Split into 64-byte chunks (`fuel` bounds the recursion by the list length). -/
def chunks64 : Nat → List Nat → List (List Nat)
  | 0, _ => []
  | _ + 1, [] => []
  | fuel + 1, l => l.take 64 :: chunks64 fuel (l.drop 64)

/-- Serialize one 32-bit word to four big-endian bytes. -/
def word32Bytes (w : Nat) : List Nat :=
  [(w >>> 24) % 256, (w >>> 16) % 256, (w >>> 8) % 256, w % 256]

/-- SHA-256 digest (32 bytes) of a byte string. -/
def sha256 (msg : List Nat) : List Nat :=
  let padded := shaPad msg
  let fin := (chunks64 padded.length padded).foldl shaCompress shaInit
  word32Bytes fin.a ++ word32Bytes fin.b ++ word32Bytes fin.c ++ word32Bytes fin.d ++
  word32Bytes fin.e ++ word32Bytes fin.f ++ word32Bytes fin.g ++ word32Bytes fin.h

/-- HMAC-SHA256 (RFC 2104): what `hmac.new(key, msg, hashlib.sha256)` computes. -/
def hmacSha256 (key msg : List Nat) : List Nat :=
  let k0 := if key.length > 64 then sha256 key else key
  let kp := k0 ++ List.replicate (64 - k0.length) 0
  let ipad := kp.map (fun b => Nat.xor b 54)
  let opad := kp.map (fun b => Nat.xor b 92)
  sha256 (opad ++ sha256 (ipad ++ msg))

/-- UTF-8 encoding of one code point (what Python's `str.encode('utf-8')` does
per character). -/
def utf8Encode (c : Nat) : List Nat :=
  if c < 128 then [c]
  else if c < 2048 then [192 + c / 64, 128 + c % 64]
  else if c < 65536 then [224 + c / 4096, 128 + c / 64 % 64, 128 + c % 64]
  else [240 + c / 262144, 128 + c / 4096 % 64, 128 + c / 64 % 64, 128 + c % 64]

/-- The UTF-8 bytes of a string (`s.encode('utf-8')`). -/
def strBytes (s : String) : List Nat :=
  s.data.flatMap (fun c => utf8Encode c.toNat)

/-- Lower-case hex digit (the sixteen characters `hexdigest` emits). -/
def hexDigit (n : Nat) : Char :=
  match n with
  | 0 => '0' | 1 => '1' | 2 => '2' | 3 => '3' | 4 => '4'
  | 5 => '5' | 6 => '6' | 7 => '7' | 8 => '8' | 9 => '9'
  | 10 => 'a' | 11 => 'b' | 12 => 'c' | 13 => 'd' | 14 => 'e' | _ => 'f'

/-- Lower-case hex string of a byte string (`.hexdigest()` output format). -/
def hexOfBytes (bs : List Nat) : String :=
  ⟨bs.flatMap (fun b => [hexDigit (b / 16), hexDigit (b % 16)])⟩

/-- `hmac.new(secret.encode('utf-8'), msg=payload, digestmod=hashlib.sha256).hexdigest()`. -/
def hmacSha256Hex (secret : String) (payload : List Nat) : String :=
  hexOfBytes (hmacSha256 (strBytes secret) payload)

/-! ## Signature verification

Embeddings of the three verifier variants.  An uncaught Python exception is
an `Except.error`. -/

/-- Python truthiness of an optional string config entry (`if CONFIG["webhook_secret"]:`):
`None` and the empty string are falsy. -/
def configured : Option String → Bool
  | none => false
  | some s => s ≠ ""

/-- A character CPython's `compare_digest` accepts in a `str` operand. -/
def isAsciiChar (c : Char) : Bool := decide (c.toNat < 128)

/-- All characters of the string are ASCII. -/
def isAsciiStr (s : String) : Bool := s.data.all isAsciiChar

/-- `hmac.compare_digest` on `str` operands: a constant-time equality test
whose result is equality of the two strings — except that CPython raises
`TypeError` when either operand contains a non-ASCII character (reachable
here, since HTTP header values are latin-1 decoded). -/
def compare_digest (a b : String) : Except String Bool :=
  if isAsciiStr a && isAsciiStr b then .ok (a == b)
  else .error "TypeError: comparing strings with non-ASCII characters is not supported"

/-- `s.split('=', 1)` when at least one `'='` is present: the part before the
first `'='` and everything after it.  `none` when the string has no `'='`
(in which case the Python two-name unpacking raises `ValueError`). -/
def splitFirstEq : List Char → Option (List Char × List Char)
  | [] => none
  | c :: cs =>
    if c = '=' then some ([], cs)
    else
      match splitFirstEq cs with
      | none => none
      | some (p, r) => some (c :: p, r)

/-- `webhook_handler.WebhookHandler._verify_signature(payload_bytes, signature_header)`
(lines 120-139); `CONFIG["webhook_secret"]` is passed explicitly.  Mirrors:
no/empty secret returns `True`; `sha_name, github_signature = signature_header.split('=', 1)`
raises `ValueError` when the header has no `'='`; a scheme other than
`sha256` returns `False`; otherwise `hmac.compare_digest` of the supplied
digest against the computed one — which itself raises `TypeError` when the
supplied digest contains a non-ASCII character. -/
def wh_verify_signature (secret : Option String) (payload_bytes : List Nat)
    (signature_header : String) : Except String Bool :=
  match secret with
  | none => .ok true
  | some s =>
    if s = "" then .ok true
    else
      match splitFirstEq signature_header.data with
      | none => .error "ValueError: not enough values to unpack"
      | some (sha_name, github_signature) =>
        if sha_name ≠ "sha256".data then .ok false
        else compare_digest (String.mk github_signature) (hmacSha256Hex s payload_bytes)

/-- `github_repo_updater.verify_webhook_signature(payload_body, signature_header, secret)`
(lines 418-429): falsy header returns `False`; otherwise the whole header is
compared against `'sha256=' + hexdigest` with `hmac.compare_digest`, which
raises `TypeError` when the header contains a non-ASCII character. -/
def verify_webhook_signature (payload_body : List Nat) (signature_header : String)
    (secret : String) : Except String Bool :=
  if signature_header = "" then .ok false
  else compare_digest signature_header ("sha256=" ++ hmacSha256Hex secret payload_body)

/-- `github_updater.WebhookHandler._verify_signature(payload_body, signature_header)`
(lines 381-400): falsy secret or falsy header returns `False`; then the same
split / scheme-check / compare as `webhook_handler`, including the `ValueError`
on a header with no `'='`. -/
def gu_verify_signature (secret : Option String) (payload_body : List Nat)
    (signature_header : String) : Except String Bool :=
  match secret with
  | none => .ok false
  | some s =>
    if s = "" ∨ signature_header = "" then .ok false
    else
      match splitFirstEq signature_header.data with
      | none => .error "ValueError: not enough values to unpack"
      | some (sha_name, github_signature) =>
        if sha_name ≠ "sha256".data then .ok false
        else compare_digest (String.mk github_signature) (hmacSha256Hex s payload_body)

/-! ## The webhook HTTP endpoint (`webhook_handler.WebhookHandler.do_POST`)

JSON parsing (`json.loads`) and the push-processing side effects
(`_process_push_event`) are Python-library / subprocess behaviour; the model
is parameterized over them: `parse` returns the fields of the parsed payload
the handler consults (`payload.get('ref')`) or `none` for a
`json.JSONDecodeError`, and `push_result` is the outcome of
`_process_push_event` (`.error` for a raised exception). -/

/-- The one payload field `do_POST` reads: `payload.get('ref')`. -/
structure PushPayload where
  ref : Option String
deriving Repr, DecidableEq

/-- An inbound HTTP POST as the handler sees it. -/
structure WebhookRequest where
  path : String
  /-- The `Content-Length` header value, `none` when absent
  (`int(self.headers.get('Content-Length', 0))`). -/
  content_length : Option Nat
  body : List Nat
  /-- `X-Hub-Signature-256` header, `none` when absent. -/
  signature256 : Option String
  /-- `X-GitHub-Event` header, `none` when absent. -/
  event : Option String
deriving Repr, DecidableEq

/-- What one `do_POST` call did: the HTTP response it sent (`none` when an
uncaught exception escaped the handler and no response was written), and
which stages were reached. -/
structure PostOutcome where
  response : Option (Nat × String)
  /-- `_verify_signature` was invoked. -/
  verify_reached : Bool
  /-- `json.loads` succeeded on the body. -/
  json_parsed : Bool
  /-- `_process_push_event` was invoked (a pipeline run was triggered). -/
  push_processed : Bool
deriving Repr, DecidableEq

/-- Configuration consulted by `do_POST`. -/
structure WebhookConfig where
  webhook_secret : Option String
  branch : String
deriving Repr, DecidableEq

/-- Python `str(x)` of an optional header/field (`None` prints as `"None"`). -/
def pyStr : Option String → String
  | none => "None"
  | some s => s

/-- A continuation byte `0x80-0xBF`. -/
def contByte (b : Nat) : Bool := 128 ≤ b && b < 192

/-- Validity of a byte string as UTF-8 (what `payload_bytes.decode('utf-8')`
accepts): the well-formed sequences of RFC 3629 — no overlong encodings, no
surrogate code points, nothing above `U+10FFFF`.  On an invalid body the
decode raises `UnicodeDecodeError`, which `except json.JSONDecodeError` does
NOT catch. -/
def utf8Valid : List Nat → Bool
  | [] => true
  | b :: rest =>
    if b < 128 then utf8Valid rest
    else if b < 194 then false
    else if b < 224 then
      match rest with
      | c1 :: rest2 => contByte c1 && utf8Valid rest2
      | [] => false
    else if b < 240 then
      match rest with
      | c1 :: c2 :: rest2 =>
        (if b = 224 then 160 ≤ c1 && c1 < 192
         else if b = 237 then 128 ≤ c1 && c1 < 160
         else contByte c1) && contByte c2 && utf8Valid rest2
      | _ => false
    else if b < 245 then
      match rest with
      | c1 :: c2 :: c3 :: rest2 =>
        (if b = 240 then 144 ≤ c1 && c1 < 192
         else if b = 244 then 128 ≤ c1 && c1 < 144
         else contByte c1) && contByte c2 && contByte c3 && utf8Valid rest2
      | _ => false
    else false

/-- The tail of `do_POST` after the signature gate (lines 86-118):
`payload_bytes.decode('utf-8')` — whose `UnicodeDecodeError` on a non-UTF-8
body escapes the `except json.JSONDecodeError` handler, so no response is
written — then `json.loads` on the decoded text (the `parse` parameter,
`none` for a `json.JSONDecodeError`), then event dispatch. -/
def wh_do_POST_after_sig (cfg : WebhookConfig) (parse : List Nat → Option PushPayload)
    (push_result : Except String Unit) (r : WebhookRequest) (verified : Bool) : PostOutcome :=
  if utf8Valid r.body then
    match parse r.body with
    | none => ⟨some (400, "Invalid JSON payload"), verified, false, false⟩
    | some payload =>
      if r.event = some "ping" then ⟨some (200, "Pong"), verified, true, false⟩
      else if r.event = some "push" then
        if payload.ref ≠ some ("refs/heads/" ++ cfg.branch) then
          ⟨some (200, "Ignored push to " ++ pyStr payload.ref), verified, true, false⟩
        else
          match push_result with
          | .ok _ => ⟨some (200, "Push event processed successfully"), verified, true, true⟩
          | .error e => ⟨some (500, "Error processing push event: " ++ e), verified, true, true⟩
      else ⟨some (200, "Received " ++ pyStr r.event ++ " event"), verified, true, false⟩
  else ⟨none, verified, false, false⟩

/-- `webhook_handler.WebhookHandler.do_POST` (lines 58-118): path check,
empty-payload check, signature gate (only when a secret is configured —
`if not signature_header:` treats an absent OR empty header as missing),
then decode/parse and dispatch. -/
def wh_do_POST (cfg : WebhookConfig) (parse : List Nat → Option PushPayload)
    (push_result : Except String Unit) (r : WebhookRequest) : PostOutcome :=
  if r.path ≠ "/webhook" then ⟨some (404, "Not found"), false, false, false⟩
  else if r.content_length.getD 0 = 0 then ⟨some (400, "Empty payload"), false, false, false⟩
  else if configured cfg.webhook_secret then
    match r.signature256 with
    | none => ⟨some (403, "Missing signature header"), false, false, false⟩
    | some hdr =>
      if hdr = "" then ⟨some (403, "Missing signature header"), false, false, false⟩
      else
        match wh_verify_signature cfg.webhook_secret r.body hdr with
        | .error _ => ⟨none, true, false, false⟩
        | .ok false => ⟨some (403, "Invalid signature"), true, false, false⟩
        | .ok true => wh_do_POST_after_sig cfg parse push_result r true
  else wh_do_POST_after_sig cfg parse push_result r false

/-- The log lines `webhook_handler.start_webhook_server` emits before serving
(lines 224-236), as (level, message) pairs. -/
def start_webhook_server_logs (webhook_secret github_token : Option String)
    (webhook_port : Nat) : List (String × String) :=
  (if configured webhook_secret then []
   else [("warning", "WEBHOOK_SECRET not set - webhook signatures won't be verified")]) ++
  (if configured github_token then []
   else [("warning", "GITHUB_TOKEN not set - repository operations may fail")]) ++
  [("info", "Starting webhook server on port " ++ toString webhook_port),
   ("info", "Press Ctrl+C to stop")]

/-! ## Git subprocess command sequences and a small git-state semantics

Each sync / commit routine shells out to git.  The embeddings record the
sequence of state-changing git commands a routine issues (read-only queries
such as `git status --porcelain` and `git symbolic-ref` are reflected as
the boolean inputs they produce), and a small semantics interprets those
commands on an abstract working-copy state. -/

/-- The state-changing git commands the scripts issue. -/
inductive GitCmd
  | clone
  | fetch
  | checkoutBranch (b : String)
  | resetHard (b : String)
  | pull (b : String)
  | stashSave
  | add
  | commit
  | push
deriving Repr, DecidableEq

/-- Abstract working-copy state: the commit the checked-out tree is based on,
whether uncommitted local modifications are present in the working tree, and
whether anything sits on the stash. -/
structure GitState where
  head : Nat
  localChanges : Bool
  stashed : Bool
deriving Repr, DecidableEq

/-- Effect of one command, given the remote branch tip `remote`.
`pull` (fetch+merge) brings `head` to the remote tip but keeps uncommitted
local modifications in the working tree; `reset --hard` discards them;
`stash save` moves them to the stash. -/
def gitExec (remote : Nat) : GitCmd → GitState → GitState
  | .clone, _ => ⟨remote, false, false⟩
  | .fetch, s => s
  | .checkoutBranch _, s => s
  | .resetHard _, s => ⟨remote, false, s.stashed⟩
  | .pull _, s => ⟨remote, s.localChanges, s.stashed⟩
  | .stashSave, s => ⟨s.head, false, true⟩
  | .add, s => s
  | .commit, s => s
  | .push, s => s

/-- Run a command sequence. -/
def gitRun (remote : Nat) (cmds : List GitCmd) (s : GitState) : GitState :=
  cmds.foldl (fun st c => gitExec remote c st) s

/-- The working tree equals the remote branch tip: based on the remote tip
commit with no residual local modifications. -/
def treeMatchesRemote (remote : Nat) (s : GitState) : Bool :=
  s.head == remote && !s.localChanges

/-- `polling_service.GitHubPoller.clone_or_pull_repository` (lines 81-128):
clone when `.git` is absent; else fetch, checkout the branch, and
`git reset --hard origin/{branch}`. -/
def ps_clone_or_pull_repository (git_exists : Bool) (branch : String) : List GitCmd :=
  if git_exists then [.fetch, .checkoutBranch branch, .resetHard branch] else [.clone]

/-- `webhook_handler.WebhookHandler._process_push_event` git portion
(lines 149-179): identical clone / fetch+checkout+reset-hard split. -/
def wh_process_push_event_git (git_exists : Bool) (branch : String) : List GitCmd :=
  if git_exists then [.fetch, .checkoutBranch branch, .resetHard branch] else [.clone]

/-- `github_updater.GitHubUpdater.clone_or_pull_repo` (lines 109-125):
clone when `.git` is absent; else `git fetch && git pull origin {branch}` —
no reset, no stash, no discard of local modifications. -/
def gu_clone_or_pull_repo (git_exists : Bool) (branch : String) : List GitCmd :=
  if git_exists then [.fetch, .pull branch] else [.clone]

/-- `github_automator.GitHubAutomator.clone_or_pull_repository` (lines 103-184):
clone when `.git` is absent; else stash when `git status --porcelain` is
nonempty (`dirty`), fetch, checkout when the current branch differs, then
`git pull origin {branch}`. -/
def auto_clone_or_pull_repository (git_exists dirty : Bool)
    (current_branch branch : String) : List GitCmd :=
  if git_exists then
    (if dirty then [.stashSave] else []) ++ [.fetch] ++
    (if current_branch ≠ branch then [.checkoutBranch branch] else []) ++ [.pull branch]
  else [.clone]

/-! ## Commit-and-push -/

/-- Staging-area view for the commit routines: uncommitted working-tree
changes and whether anything is staged.  `git status --porcelain` is empty
iff both are false. -/
structure WorkTree where
  dirty : Bool
  staged : Bool
deriving Repr, DecidableEq

/-- `git status --porcelain` produced no output. -/
def statusClean (w : WorkTree) : Bool := !w.dirty && !w.staged

/-- Semantics of the commit-chain commands: `add` stages the dirty changes;
`commit` exits nonzero (`none`) when nothing is staged — "nothing to
commit" — and otherwise commits; `push` succeeds. -/
def commitExec : GitCmd → WorkTree → Option WorkTree
  | .add, w => some ⟨false, w.staged || w.dirty⟩
  | .commit, w => if w.staged then some ⟨w.dirty, false⟩ else none
  | _, w => some w

/-- Run a `&&`-chained command list, stopping at the first failure; returns
the final state (`none` on failure) and the commands actually attempted. -/
def commitRun : List GitCmd → WorkTree → Option WorkTree × List GitCmd
  | [], w => (some w, [])
  | c :: cs, w =>
    match commitExec c w with
    | none => (none, [c])
    | some w2 =>
      let r := commitRun cs w2
      (r.1, c :: r.2)

/-- `github_updater.GitHubUpdater.commit_and_push_changes` (lines 240-260):
one shell line `git add . && git commit -m msg && git push …` with no prior
status check; `True` iff the chain succeeded (a `CalledProcessError` from any
link, e.g. `git commit` on a clean tree, yields `False`). -/
def gu_commit_and_push_changes (w : WorkTree) : Bool × List GitCmd :=
  let r := commitRun [.add, .commit, .push] w
  (r.1.isSome, r.2)

/-- `github_automator.GitHubAutomator.commit_and_push_changes` (lines 186-268):
`git status --porcelain` first; empty output short-circuits to `True`
("No changes to commit") issuing no further git commands; otherwise
add / commit / push (the `git config` probes are read-only and omitted). -/
def auto_commit_and_push_changes (w : WorkTree) : Bool × List GitCmd :=
  if statusClean w then (true, [])
  else
    let r := commitRun [.add, .commit, .push] w
    (r.1.isSome, r.2)

/-! ## Polling loop bodies -/

/-- Result of one poll iteration: the new watermark and which stages ran. -/
structure PollOutcome where
  newLast : Option String
  /-- The "new commit detected" branch was taken. -/
  changeDetected : Bool
  /-- The sync routine was invoked. -/
  syncAttempted : Bool
  /-- The post-sync update steps ran. -/
  postStepsRan : Bool
deriving Repr, DecidableEq

/-- `polling_service.GitHubPoller.poll_and_update` (lines 228-253), one
iteration: `current` is what `get_latest_commit_sha` returned (`none` on
failure), `sync_ok` the result of `clone_or_pull_repository`.  The watermark
is assigned only inside `if self.clone_or_pull_repository():`. -/
def ps_poll_and_update (last current : Option String) (sync_ok : Bool) : PollOutcome :=
  match current with
  | none => ⟨last, false, false, false⟩
  | some sha =>
    if last = none ∨ last ≠ some sha then
      if sync_ok then ⟨some sha, true, true, true⟩
      else ⟨last, true, true, false⟩
    else ⟨last, false, false, false⟩

/-- `github_automator.GitHubAutomator.poll_for_changes` loop body
(lines 524-543): on a new SHA it assigns `self.last_commit_sha = current_sha`
BEFORE calling `clone_or_pull_repository`, whose return value is ignored;
build/todo/changelog then run unconditionally. -/
def auto_poll_for_changes_step (last current : Option String) (_sync_ok : Bool) : PollOutcome :=
  match current with
  | none => ⟨last, false, false, false⟩
  | some sha =>
    if last = none ∨ last ≠ some sha then ⟨some sha, true, true, true⟩
    else ⟨last, false, false, false⟩

/-- `github_updater.GitHubUpdater.run_polling` loop body (lines 293-316):
`last_commit_sha = current_commit_sha` is assigned before
`full_update_process()`, whose result is ignored. -/
def gu_run_polling_step (last current : Option String) (_update_ok : Bool) : PollOutcome :=
  match current with
  | none => ⟨last, false, false, false⟩
  | some sha =>
    if last = none ∨ last ≠ some sha then ⟨some sha, true, true, true⟩
    else ⟨last, false, false, false⟩

/-! ## Pipeline control flow -/

/-- `github_updater.GitHubUpdater.full_update_process` (lines 262-285),
parameterized by the results of its four sub-steps: returns the overall
result and the list of steps actually invoked, mirroring the source's early
returns.  A `setup_vscode_extension` failure aborts ("aborting update"); a
`build_extension` failure only logs a warning and continues. -/
def gu_full_update_process (sync_ok setup_ok build_ok commit_ok : Bool) :
    Bool × List String :=
  if !sync_ok then (false, ["clone_or_pull_repo"])
  else if !setup_ok then (false, ["clone_or_pull_repo", "setup_vscode_extension"])
  else
    let steps := ["clone_or_pull_repo", "setup_vscode_extension", "build_extension",
                  "commit_and_push_changes"]
    let _ := build_ok
    if !commit_ok then (false, steps) else (true, steps)

/-- `github_automator.main` one-shot `update` mode (lines 812-832):
sync failure returns exit code 1; the build result is ignored; todo and
changelog updates always run after a successful sync; commit-and-push runs
when `auto_commit` is configured and its result does not affect the exit
code, which is 0. -/
def auto_update_mode (sync_ok _build_ok no_build auto_commit _commit_ok : Bool) :
    Nat × List String :=
  if !sync_ok then (1, ["clone_or_pull_repository"])
  else
    (0, ["clone_or_pull_repository"] ++
        (if no_build then [] else ["build_vscode_extension"]) ++
        ["update_todo_file", "update_changelog"] ++
        (if auto_commit then ["commit_and_push_changes"] else []))

/-! ## `github_automator.update_changelog`

Pure text transformation on the changelog contents; Python's
`str.find(sub, start)` is embedded over `List Char`. -/

/-- Index of the first occurrence of `needle` in `l`, offset by `i`. -/
def findSubAux (needle : List Char) : List Char → Nat → Option Nat
  | [], i => if needle = [] then some i else none
  | l@(_ :: cs), i => if needle.isPrefixOf l then some i else findSubAux needle cs (i + 1)

/-- Python `hay.find(needle, start)`: smallest index `≥ start` where `needle`
occurs, `none` standing for Python's `-1`. -/
def strFind (hay needle : String) (start : Nat) : Option Nat :=
  match findSubAux needle.data (hay.data.drop start) 0 with
  | some j => some (start + j)
  | none => none

/-- The `new_entry` text `update_changelog` builds (lines 411-421); the
insertion branch (lines 443-449) concatenates the same text inline. -/
def changelog_new_entry (timestamp : String) : String :=
  "## [Unreleased] - " ++ timestamp ++ "\n\n### Added\n- Enhanced GitHub repository automation\n- Real-time updates via webhooks/polling\n\n### Fixed\n- VSCode extension TypeScript errors\n- Improved error handling and logging\n\n"

/-- `github_automator.GitHubAutomator.update_changelog` (lines 406-466) as a
function from the current file contents (`none` when the file is absent) to
the contents it writes.  When an `## [Unreleased]` marker exists it looks for
the next `"##"` occurrence from `unreleased_pos + 1` and splices the new
entry between the two positions (`if next_version_pos > 0`); an absent
marker prepends the entry after the title line. -/
def auto_update_changelog (timestamp : String) (existing : Option String) : String :=
  match existing with
  | none => "# Changelog\n\n" ++ changelog_new_entry timestamp
  | some content =>
    match strFind content "## [Unreleased]" 0 with
    | some unreleased_pos =>
      match strFind content "##" (unreleased_pos + 1) with
      | some next_version_pos =>
        if next_version_pos > 0 then
          String.mk (content.data.take unreleased_pos) ++ changelog_new_entry timestamp ++
          String.mk (content.data.drop next_version_pos)
        else content ++ "\n" ++ changelog_new_entry timestamp
      | none => content ++ "\n" ++ changelog_new_entry timestamp
    | none =>
      let title_end := match strFind content "\n" 0 with
        | some i => i + 1
        | none => 0
      String.mk (content.data.take title_end) ++ "\n" ++ changelog_new_entry timestamp ++
      String.mk (content.data.drop title_end)

/-- The signature gate of `do_POST` lets a request through: either no secret
is configured (verification skipped) or the supplied header verifies. -/
def wh_gate_open (cfg : WebhookConfig) (r : WebhookRequest) : Prop :=
  configured cfg.webhook_secret = false ∨
  ∃ hdr, r.signature256 = some hdr ∧
    wh_verify_signature cfg.webhook_secret r.body hdr = .ok true

/-! ## Helper lemmas -/

theorem hexOfBytes_length (bs : List Nat) : (hexOfBytes bs).length = 2 * bs.length := by
  have key : ∀ l : List Nat,
      (l.flatMap (fun b => [hexDigit (b / 16), hexDigit (b % 16)])).length = 2 * l.length := by
    intro l
    induction l with
    | nil => rfl
    | cons b tl ih =>
      simp only [List.flatMap_cons, List.length_append, List.length_cons, List.length_nil, ih]
      omega
  simpa [hexOfBytes, String.length_mk] using key bs

theorem sha256_length (msg : List Nat) : (sha256 msg).length = 32 := by
  simp [sha256, word32Bytes]

theorem hmacSha256Hex_length (secret : String) (payload : List Nat) :
    (hmacSha256Hex secret payload).length = 64 := by
  unfold hmacSha256Hex hmacSha256
  rw [hexOfBytes_length, sha256_length]

theorem splitFirstEq_of_not_mem (l : List Char) (h : '=' ∉ l) : splitFirstEq l = none := by
  induction l with
  | nil => rfl
  | cons c cs ih =>
    simp only [List.mem_cons, not_or] at h
    have hc : ¬ c = '=' := fun hce => h.1 hce.symm
    simp only [splitFirstEq, if_neg hc, ih h.2]

theorem splitFirstEq_append (p r : List Char) (hp : '=' ∉ p) :
    splitFirstEq (p ++ '=' :: r) = some (p, r) := by
  induction p with
  | nil => simp [splitFirstEq]
  | cons c cs ih =>
    simp only [List.mem_cons, not_or] at hp
    have hc : ¬ c = '=' := fun hce => hp.1 hce.symm
    simp only [List.cons_append, splitFirstEq, if_neg hc, List.append_eq, ih hp.2]

theorem splitFirstEq_eq_some (l p r : List Char) (h : splitFirstEq l = some (p, r)) :
    l = p ++ '=' :: r ∧ '=' ∉ p := by
  induction l generalizing p r with
  | nil => simp [splitFirstEq] at h
  | cons c cs ih =>
    simp only [splitFirstEq] at h
    by_cases hc : c = '='
    · rw [if_pos hc] at h
      obtain ⟨hp, hr⟩ := Prod.mk.injEq .. ▸ Option.some.injEq .. ▸ h
      subst hc
      simp [← hp, ← hr]
    · rw [if_neg hc] at h
      cases hsplit : splitFirstEq cs with
      | none => rw [hsplit] at h; exact absurd h (by simp)
      | some pr =>
        obtain ⟨p2, r2⟩ := pr
        rw [hsplit] at h
        have hp : c :: p2 = p := congrArg Prod.fst (Option.some.inj h)
        have hr : r2 = r := congrArg Prod.snd (Option.some.inj h)
        obtain ⟨hl, hm⟩ := ih p2 r2 hsplit
        subst hr
        rw [← hp, hl]
        refine ⟨rfl, ?_⟩
        simp only [List.mem_cons, not_or]
        exact ⟨fun hce => hc hce.symm, hm⟩

theorem splitFirstEq_isSome (l : List Char) (h : '=' ∈ l) :
    ∃ p r, splitFirstEq l = some (p, r) := by
  induction l with
  | nil => simp at h
  | cons c cs ih =>
    by_cases hc : c = '='
    · exact ⟨[], cs, by simp [splitFirstEq, hc]⟩
    · have hcs : '=' ∈ cs := by
        rcases List.mem_cons.mp h with hce | hcs
        · exact absurd hce.symm hc
        · exact hcs
      obtain ⟨p, r, hpr⟩ := ih hcs
      exact ⟨c :: p, r, by simp only [splitFirstEq, if_neg hc, hpr]⟩

theorem sha256_prefix_data (r : String) :
    ("sha256=" ++ r).data = "sha256".data ++ '=' :: r.data := by
  rw [String.data_append]
  rfl

theorem hexDigit_ascii (n : Nat) : isAsciiChar (hexDigit n) = true := by
  unfold hexDigit
  split <;> rfl

theorem hexOfBytes_ascii (bs : List Nat) : isAsciiStr (hexOfBytes bs) = true := by
  have key : ∀ l : List Nat,
      (l.flatMap (fun b => [hexDigit (b / 16), hexDigit (b % 16)])).all isAsciiChar = true := by
    intro l
    induction l with
    | nil => rfl
    | cons b tl ih =>
      simp [List.flatMap_cons, hexDigit_ascii, ih]
  exact key bs

theorem hmacSha256Hex_ascii (secret : String) (payload : List Nat) :
    isAsciiStr (hmacSha256Hex secret payload) = true :=
  hexOfBytes_ascii _

theorem isAsciiStr_append (a b : String) :
    isAsciiStr (a ++ b) = (isAsciiStr a && isAsciiStr b) := by
  simp [isAsciiStr, String.data_append, List.all_append]

theorem compare_digest_ok (a b : String) (ha : isAsciiStr a = true)
    (hb : isAsciiStr b = true) : compare_digest a b = .ok (a == b) := by
  simp [compare_digest, ha, hb]

theorem compare_digest_typeerror (a b : String) (ha : isAsciiStr a = false) :
    compare_digest a b =
      .error "TypeError: comparing strings with non-ASCII characters is not supported" := by
  simp [compare_digest, ha]

theorem wh_verify_prefixed (s : String) (hs : s ≠ "") (b : List Nat) (r : String) :
    wh_verify_signature (some s) b ("sha256=" ++ r) =
      compare_digest r (hmacSha256Hex s b) := by
  simp only [wh_verify_signature]
  rw [if_neg hs, sha256_prefix_data, splitFirstEq_append _ _ (by decide)]
  simp

theorem string_ne_of_data_ne {a b : String} (h : a.data ≠ b.data) : a ≠ b :=
  fun hab => h (hab ▸ rfl)

theorem wh_verify_split (s : String) (hs : s ≠ "") (b : List Nat) (hdr : String)
    (p r : List Char) (hsplit : splitFirstEq hdr.data = some (p, r)) :
    wh_verify_signature (some s) b hdr =
      if p ≠ "sha256".data then .ok false
      else compare_digest (String.mk r) (hmacSha256Hex s b) := by
  simp only [wh_verify_signature, if_neg hs, hsplit]

theorem wh_verify_ok_true_iff (s : String) (hs : s ≠ "") (b : List Nat) (hdr : String) :
    wh_verify_signature (some s) b hdr = .ok true ↔
      hdr = "sha256=" ++ hmacSha256Hex s b := by
  constructor
  · intro h
    cases hsplit : splitFirstEq hdr.data with
    | none =>
      rw [show wh_verify_signature (some s) b hdr =
            .error "ValueError: not enough values to unpack" by
          simp only [wh_verify_signature, if_neg hs, hsplit]] at h
      exact absurd h (by simp)
    | some pr =>
      obtain ⟨p, r⟩ := pr
      rw [wh_verify_split s hs b hdr p r hsplit] at h
      by_cases hp : p = "sha256".data
      · rw [if_neg (fun hn => hn hp)] at h
        unfold compare_digest at h
        by_cases hac : (isAsciiStr (String.mk r) && isAsciiStr (hmacSha256Hex s b)) = true
        · rw [if_pos hac] at h
          have hr : String.mk r = hmacSha256Hex s b := eq_of_beq (Except.ok.inj h)
          obtain ⟨hl, _⟩ := splitFirstEq_eq_some _ _ _ hsplit
          apply String.ext
          rw [hl, sha256_prefix_data, hp, ← hr]
        · rw [if_neg hac] at h
          exact absurd h (by simp)
      · rw [if_pos hp] at h
        exact absurd h (by simp)
  · intro h
    rw [h, wh_verify_prefixed s hs b,
      compare_digest_ok _ _ (hmacSha256Hex_ascii s b) (hmacSha256Hex_ascii s b)]
    simp

/-- Claim C1 (counterexample): a signature header without the `sha256=`
prefix does NOT always make verification return false — a header containing
no `'='` at all makes `webhook_handler._verify_signature` raise `ValueError`
from the `signature_header.split('=', 1)` two-name unpacking, so verification
neither returns false nor returns true there (it raises). -/
theorem C1_counterexample :
    wh_verify_signature (some "secret") [1, 2, 3] "0123abcd" =
      .error "ValueError: not enough values to unpack" ∧
    wh_verify_signature (some "secret") [1, 2, 3] "0123abcd" ≠ .ok false ∧
    wh_verify_signature (some "secret") [1, 2, 3] "0123abcd" ≠ .ok true := by
  have h : wh_verify_signature (some "secret") [1, 2, 3] "0123abcd" =
      .error "ValueError: not enough values to unpack" := by
    simp only [wh_verify_signature, if_neg (by decide : ¬("secret" : String) = "")]
    rw [splitFirstEq_of_not_mem _ (by decide)]
  exact ⟨h, by rw [h]; simp, by rw [h]; simp⟩

/-- Claim C1 (amended): for every secret `S ≠ ""` and raw payload `B`,
`webhook_handler._verify_signature(S, B, "sha256=" + hex(HMAC-SHA256(S,B)))`
returns true, and it returns true ONLY on exactly that header; hence any
other ASCII digest after `sha256=` (e.g. one with a flipped hex digit)
returns false, and flipping a byte of `B` returns false whenever that
changes the HMAC digest.  A header containing `'='` whose scheme part is not
`sha256` returns false.  Two header shapes raise instead of returning false:
a header with no `'='` raises `ValueError` from the split unpacking, and a
header whose part after `sha256=` contains a non-ASCII character raises
`TypeError` from `hmac.compare_digest`.
`github_repo_updater.verify_webhook_signature` returns, on every ASCII
header, exactly whether the whole header equals
`"sha256=" + hex(HMAC-SHA256(S,B))` (false on an empty header, no raise);
on a nonempty non-ASCII header it raises `TypeError` from `compare_digest`. -/
theorem C1_theorem :
    (∀ (s : String) (b : List Nat),
        wh_verify_signature (some s) b ("sha256=" ++ hmacSha256Hex s b) = .ok true) ∧
    (∀ (s : String) (b : List Nat) (hdr : String), s ≠ "" →
        (wh_verify_signature (some s) b hdr = .ok true ↔
          hdr = "sha256=" ++ hmacSha256Hex s b)) ∧
    (∀ (s : String) (b : List Nat) (r : String), s ≠ "" → isAsciiStr r = true →
        r ≠ hmacSha256Hex s b →
        wh_verify_signature (some s) b ("sha256=" ++ r) = .ok false) ∧
    (∀ (s : String) (b b2 : List Nat), s ≠ "" →
        hmacSha256Hex s b ≠ hmacSha256Hex s b2 →
        wh_verify_signature (some s) b2 ("sha256=" ++ hmacSha256Hex s b) = .ok false) ∧
    (∀ (s : String) (b : List Nat) (p r : String), s ≠ "" → '=' ∉ p.data → p ≠ "sha256" →
        wh_verify_signature (some s) b (p ++ "=" ++ r) = .ok false) ∧
    (∀ (s : String) (b : List Nat) (hdr : String), s ≠ "" → '=' ∉ hdr.data →
        wh_verify_signature (some s) b hdr =
          .error "ValueError: not enough values to unpack") ∧
    (∀ (s : String) (b : List Nat) (r : String), s ≠ "" → isAsciiStr r = false →
        wh_verify_signature (some s) b ("sha256=" ++ r) =
          .error "TypeError: comparing strings with non-ASCII characters is not supported") ∧
    (∀ (s hdr : String) (b : List Nat), isAsciiStr hdr = true →
        verify_webhook_signature b hdr s = .ok (hdr == "sha256=" ++ hmacSha256Hex s b)) ∧
    (∀ (s hdr : String) (b : List Nat), hdr ≠ "" → isAsciiStr hdr = false →
        verify_webhook_signature b hdr s =
          .error "TypeError: comparing strings with non-ASCII characters is not supported") := by
  refine ⟨?_, ?_, ?_, ?_, ?_, ?_, ?_, ?_, ?_⟩
  · intro s b
    by_cases hs : s = ""
    · subst hs; simp [wh_verify_signature]
    · rw [wh_verify_prefixed s hs b,
        compare_digest_ok _ _ (hmacSha256Hex_ascii s b) (hmacSha256Hex_ascii s b)]
      simp
  · intro s b hdr hs
    exact wh_verify_ok_true_iff s hs b hdr
  · intro s b r hs hra hr
    rw [wh_verify_prefixed s hs b, compare_digest_ok _ _ hra (hmacSha256Hex_ascii s b)]
    simp only [Except.ok.injEq]
    exact beq_eq_false_iff_ne.mpr hr
  · intro s b b2 hs hne
    rw [wh_verify_prefixed s hs b2,
      compare_digest_ok _ _ (hmacSha256Hex_ascii s b) (hmacSha256Hex_ascii s b2)]
    simp only [Except.ok.injEq]
    exact beq_eq_false_iff_ne.mpr hne
  · intro s b p r hs hp hps
    have hd : (p ++ "=" ++ r).data = p.data ++ '=' :: r.data := by
      rw [String.data_append, String.data_append]
      simp [List.append_assoc]
    have hsplit : splitFirstEq (p ++ "=" ++ r).data = some (p.data, r.data) := by
      rw [hd]
      exact splitFirstEq_append _ _ hp
    rw [wh_verify_split s hs b _ _ _ hsplit, if_pos (fun hh => hps (String.ext hh))]
  · intro s b hdr hs hm
    simp only [wh_verify_signature, if_neg hs]
    rw [splitFirstEq_of_not_mem _ hm]
  · intro s b r hs hra
    rw [wh_verify_prefixed s hs b]
    exact compare_digest_typeerror _ _ hra
  · intro s hdr b ha
    unfold verify_webhook_signature
    by_cases hh : hdr = ""
    · subst hh
      rw [if_pos rfl]
      have hne : ("" : String) ≠ "sha256=" ++ hmacSha256Hex s b :=
        string_ne_of_data_ne (by rw [sha256_prefix_data]; simp)
      rw [beq_eq_false_iff_ne.mpr hne]
    · rw [if_neg hh]
      refine compare_digest_ok hdr _ ha ?_
      rw [isAsciiStr_append, hmacSha256Hex_ascii]
      rfl
  · intro s hdr b hne hna
    unfold verify_webhook_signature
    rw [if_neg hne]
    exact compare_digest_typeerror _ _ hna

set_option maxRecDepth 40000 in
/-- Claim C1 (witness): concrete instances of `C1_theorem` — the correct
signature for secret `"secret"` and body `[1, 2, 3]` verifies; an empty
digest and the digest of the one-byte-different body `[1, 2, 4]` are
rejected; a `sha1=` scheme is rejected; a header with no `'='` raises
`ValueError`; a non-ASCII digest raises `TypeError`; the
`github_repo_updater` variant rejects a wrong ASCII digest and raises
`TypeError` on a non-ASCII header. -/
theorem C1_witness :
    wh_verify_signature (some "secret") [1, 2, 3]
      ("sha256=" ++ hmacSha256Hex "secret" [1, 2, 3]) = .ok true ∧
    (wh_verify_signature (some "secret") [1, 2, 3] "sha256=zz" = .ok true ↔
      ("sha256=zz" : String) = "sha256=" ++ hmacSha256Hex "secret" [1, 2, 3]) ∧
    wh_verify_signature (some "secret") [1, 2, 3] ("sha256=" ++ "") = .ok false ∧
    wh_verify_signature (some "secret") [1, 2, 4]
      ("sha256=" ++ hmacSha256Hex "secret" [1, 2, 3]) = .ok false ∧
    wh_verify_signature (some "secret") [1, 2, 3] ("sha1" ++ "=" ++ "ff") = .ok false ∧
    wh_verify_signature (some "secret") [1, 2, 3] "0123abcd" =
      .error "ValueError: not enough values to unpack" ∧
    wh_verify_signature (some "secret") [1, 2, 3] ("sha256=" ++ "é") =
      .error "TypeError: comparing strings with non-ASCII characters is not supported" ∧
    verify_webhook_signature [1, 2, 3] "sha256=00" "secret" = .ok false ∧
    verify_webhook_signature [1, 2, 3] "sha256=é" "secret" =
      .error "TypeError: comparing strings with non-ASCII characters is not supported" := by
  refine ⟨C1_theorem.1 "secret" [1, 2, 3],
          C1_theorem.2.1 "secret" [1, 2, 3] "sha256=zz" (by decide),
          C1_theorem.2.2.1 "secret" [1, 2, 3] "" (by decide) (by decide) (by decide),
          C1_theorem.2.2.2.1 "secret" [1, 2, 3] [1, 2, 4] (by decide) (by decide),
          C1_theorem.2.2.2.2.1 "secret" [1, 2, 3] "sha1" "ff" (by decide) (by decide)
            (by decide),
          C1_theorem.2.2.2.2.2.1 "secret" [1, 2, 3] "0123abcd" (by decide) (by decide),
          C1_theorem.2.2.2.2.2.2.1 "secret" [1, 2, 3] "é" (by decide) (by decide),
          ?_,
          C1_theorem.2.2.2.2.2.2.2.2 "secret" "sha256=é" [1, 2, 3] (by decide) (by decide)⟩
  rw [C1_theorem.2.2.2.2.2.2.2.1 "secret" "sha256=00" [1, 2, 3] (by decide)]
  have h : ("sha256=00" == "sha256=" ++ hmacSha256Hex "secret" [1, 2, 3]) = false := by
    decide
  rw [h]

/-- Claim C2: watermark safety.  `polling_service.poll_and_update` does keep
`last_commit_sha` unchanged when sync fails (the assignment sits inside
`if self.clone_or_pull_repository():`), but `github_automator.poll_for_changes`
and `github_updater.run_polling` assign the watermark BEFORE invoking the
sync/update routine and ignore its result, so on a change-triggered run with
a failed sync the watermark has still advanced — the claim's property is
violated by those variants (the concrete final conjuncts evaluate them at a
first-observation run whose sync fails). -/
theorem C2_theorem :
    (∀ (last current : Option String),
        (ps_poll_and_update last current false).newLast = last) ∧
    (∀ (last : Option String) (sha : String),
        (auto_poll_for_changes_step last (some sha) false).newLast =
          if last = none ∨ last ≠ some sha then some sha else last) ∧
    (∀ (last : Option String) (sha : String),
        (gu_run_polling_step last (some sha) false).newLast =
          if last = none ∨ last ≠ some sha then some sha else last) ∧
    auto_poll_for_changes_step none (some "abc123") false =
      ⟨some "abc123", true, true, true⟩ ∧
    gu_run_polling_step none (some "abc123") false =
      ⟨some "abc123", true, true, true⟩ := by
  refine ⟨?_, ?_, ?_, by decide, by decide⟩
  · intro last current
    cases current with
    | none => rfl
    | some sha =>
      by_cases hc : last = none ∨ last ≠ some sha <;>
        simp [ps_poll_and_update, hc]
  · intro last sha
    by_cases hc : last = none ∨ last ≠ some sha <;>
      simp [auto_poll_for_changes_step, hc]
  · intro last sha
    by_cases hc : last = none ∨ last ≠ some sha <;>
      simp [gu_run_polling_step, hc]

/-- Claim C3 (counterexample): the very first successful poll observation IS
treated as a change — `polling_service.poll_and_update` from the initial
state (`last_commit_sha is None`) takes the "New commit detected" branch,
attempts the sync and runs the post-update steps, contradicting the claim
that the first observation is baseline only. -/
theorem C3_counterexample :
    ps_poll_and_update none (some "abc123") true =
      ⟨some "abc123", true, true, true⟩ := by decide

/-- Claim C3 (amended): every poller variant treats the first observation as
a change: with no recorded `last_commit_sha`, an observed SHA takes the
"New commit detected" branch and triggers the sync/pipeline; in general the
change branch is taken exactly when `last_commit_sha` is unset or differs
from the observed SHA. -/
theorem C3_theorem :
    (∀ sha : String, (ps_poll_and_update none (some sha) true).changeDetected = true ∧
        (ps_poll_and_update none (some sha) true).syncAttempted = true) ∧
    (∀ (last : Option String) (sha : String) (sync_ok : Bool),
        (ps_poll_and_update last (some sha) sync_ok).changeDetected =
          decide (last = none ∨ last ≠ some sha)) ∧
    (∀ sha : String, (auto_poll_for_changes_step none (some sha) true).syncAttempted = true) ∧
    (∀ sha : String, (gu_run_polling_step none (some sha) true).syncAttempted = true) := by
  refine ⟨?_, ?_, ?_, ?_⟩
  · intro sha
    constructor <;> simp [ps_poll_and_update]
  · intro last sha sync_ok
    by_cases hc : last = none ∨ last ≠ some sha
    · cases sync_ok <;> simp [ps_poll_and_update, hc]
    · simp [ps_poll_and_update, hc]
  · intro sha
    simp [auto_poll_for_changes_step]
  · intro sha
    simp [gu_run_polling_step]

theorem wh_verify_empty_header (s : String) (hs : s ≠ "") (b : List Nat) :
    wh_verify_signature (some s) b "" =
      .error "ValueError: not enough values to unpack" := by
  simp only [wh_verify_signature, if_neg hs]
  rfl

theorem wh_verify_no_error (hdr : String) (hm : '=' ∈ hdr.data)
    (ha : isAsciiStr hdr = true) (secret : Option String) (b : List Nat) :
    ∃ res : Bool, wh_verify_signature secret b hdr = .ok res := by
  cases secret with
  | none => exact ⟨true, rfl⟩
  | some s =>
    by_cases hs : s = ""
    · exact ⟨true, by simp [wh_verify_signature, hs]⟩
    · obtain ⟨p, r, hsplit⟩ := splitFirstEq_isSome hdr.data hm
      by_cases hp : p ≠ "sha256".data
      · exact ⟨false, by rw [wh_verify_split s hs b hdr p r hsplit, if_pos hp]⟩
      · obtain ⟨hl, _⟩ := splitFirstEq_eq_some _ _ _ hsplit
        have hra : isAsciiStr (String.mk r) = true := by
          unfold isAsciiStr at ha ⊢
          rw [hl] at ha
          simp only [List.all_append, List.all_cons, Bool.and_eq_true] at ha
          exact ha.2.2
        refine ⟨String.mk r == hmacSha256Hex s b, ?_⟩
        rw [wh_verify_split s hs b hdr p r hsplit, if_neg hp]
        exact compare_digest_ok _ _ hra (hmacSha256Hex_ascii s b)

theorem wh_after_sig_response_isSome (cfg : WebhookConfig)
    (parse : List Nat → Option PushPayload) (push_result : Except String Unit)
    (r : WebhookRequest) (v : Bool) (hutf : utf8Valid r.body = true) :
    (wh_do_POST_after_sig cfg parse push_result r v).response.isSome = true := by
  unfold wh_do_POST_after_sig
  rw [if_pos hutf]
  cases parse r.body with
  | none => rfl
  | some payload =>
    by_cases h1 : r.event = some "ping"
    · simp [h1]
    · by_cases h2 : r.event = some "push"
      · by_cases h3 : payload.ref ≠ some ("refs/heads/" ++ cfg.branch)
        · simp [h1, h2, h3]
        · cases push_result <;> simp [h1, h2, h3]
      · simp [h1, h2]

theorem wh_after_sig_unicode (cfg : WebhookConfig)
    (parse : List Nat → Option PushPayload) (push_result : Except String Unit)
    (r : WebhookRequest) (v : Bool) (hutf : utf8Valid r.body = false) :
    wh_do_POST_after_sig cfg parse push_result r v = ⟨none, v, false, false⟩ := by
  unfold wh_do_POST_after_sig
  rw [if_neg (by simp [hutf])]

theorem wh_do_POST_gate (cfg : WebhookConfig) (parse : List Nat → Option PushPayload)
    (push_result : Except String Unit) (r : WebhookRequest)
    (hpath : r.path = "/webhook") (hcl : r.content_length.getD 0 ≠ 0)
    (hgate : wh_gate_open cfg r) :
    wh_do_POST cfg parse push_result r =
      wh_do_POST_after_sig cfg parse push_result r (configured cfg.webhook_secret) := by
  have h1 : ¬ (r.path ≠ "/webhook") := fun h => h hpath
  unfold wh_do_POST
  rw [if_neg h1, if_neg hcl]
  by_cases hsec : configured cfg.webhook_secret = true
  · rw [if_pos hsec, hsec]
    rcases hgate with hfalse | ⟨hdr, hh, hv⟩
    · rw [hsec] at hfalse; exact absurd hfalse (by simp)
    · have hne : ¬ hdr = "" := by
        intro he
        subst he
        cases hsec2 : cfg.webhook_secret with
        | none => rw [hsec2] at hsec; exact absurd hsec (by simp [configured])
        | some s =>
          have hsne : s ≠ "" := by
            rw [hsec2] at hsec
            simpa [configured] using hsec
          rw [hsec2, wh_verify_empty_header s hsne r.body] at hv
          exact absurd hv (by simp)
      simp only [hh, if_neg hne, hv]
  · rw [if_neg hsec]
    simp only [Bool.not_eq_true] at hsec
    rw [hsec]

/-- Claim C4 (counterexample): the reject-reason mapping is not as claimed
for every request — a POST to `/webhook` with `Content-Length: 0` and NO
signature header (secret configured) is answered `400 "Empty payload"`, not
the claimed `403`, because the empty-payload check precedes the signature
gate. -/
theorem C4_counterexample :
    wh_do_POST ⟨some "s", "main"⟩ (fun _ => some ⟨some "refs/heads/main"⟩) (.ok ())
      ⟨"/webhook", some 0, [], none, some "push"⟩ =
      ⟨some (400, "Empty payload"), false, false, false⟩ ∧
    (wh_do_POST ⟨some "s", "main"⟩ (fun _ => some ⟨some "refs/heads/main"⟩) (.ok ())
      ⟨"/webhook", some 0, [], none, some "push"⟩).response ≠
      some (403, "Missing signature header") := by
  refine ⟨rfl, ?_⟩
  intro h
  simp [wh_do_POST] at h

/-- Claim C4 (amended): for every POST to `/webhook` with a nonempty payload:
when a secret is configured, an absent OR empty `X-Hub-Signature-256` header
yields 403 ("Missing signature header"), and a supplied nonempty header on
which verification returns false yields 403 ("Invalid signature"), in both
cases before the body is decoded or parsed and with no pipeline run
triggered; once the signature gate passes (or no secret is configured), a
valid-UTF-8 body that fails JSON parsing yields 400, a non-push event yields
200, and a push whose ref is not `refs/heads/{branch}` yields 200 ("Ignored
push to ..."), none of which trigger a pipeline run.  Deviations from the
claimed mapping: an empty payload short-circuits to 400 before the signature
gate (see the counterexample); a body that is not valid UTF-8 raises
`UnicodeDecodeError`, which `except json.JSONDecodeError` does not catch, so
NO response is produced (not the claimed 400); and a supplied header with no
`'='` (ValueError) or with a non-ASCII digest part (TypeError in
`compare_digest`) makes verification raise, again producing no response.
Exactly one response is guaranteed when every supplied signature header
contains `'='` and is ASCII and the body is valid UTF-8. -/
theorem C4_theorem :
    (∀ (cfg : WebhookConfig) (parse : List Nat → Option PushPayload)
        (push_result : Except String Unit) (r : WebhookRequest),
        r.path = "/webhook" → r.content_length.getD 0 ≠ 0 →
        configured cfg.webhook_secret = true →
        (r.signature256 = none ∨ r.signature256 = some "") →
        wh_do_POST cfg parse push_result r =
          ⟨some (403, "Missing signature header"), false, false, false⟩) ∧
    (∀ (cfg : WebhookConfig) (parse : List Nat → Option PushPayload)
        (push_result : Except String Unit) (r : WebhookRequest) (hdr : String),
        r.path = "/webhook" → r.content_length.getD 0 ≠ 0 →
        configured cfg.webhook_secret = true → r.signature256 = some hdr → hdr ≠ "" →
        wh_verify_signature cfg.webhook_secret r.body hdr = .ok false →
        wh_do_POST cfg parse push_result r =
          ⟨some (403, "Invalid signature"), true, false, false⟩) ∧
    (∀ (cfg : WebhookConfig) (parse : List Nat → Option PushPayload)
        (push_result : Except String Unit) (r : WebhookRequest),
        r.path = "/webhook" → r.content_length.getD 0 ≠ 0 → wh_gate_open cfg r →
        utf8Valid r.body = false →
        (wh_do_POST cfg parse push_result r).response = none ∧
        (wh_do_POST cfg parse push_result r).push_processed = false) ∧
    (∀ (cfg : WebhookConfig) (parse : List Nat → Option PushPayload)
        (push_result : Except String Unit) (r : WebhookRequest),
        r.path = "/webhook" → r.content_length.getD 0 ≠ 0 → wh_gate_open cfg r →
        utf8Valid r.body = true → parse r.body = none →
        (wh_do_POST cfg parse push_result r).response = some (400, "Invalid JSON payload") ∧
        (wh_do_POST cfg parse push_result r).push_processed = false) ∧
    (∀ (cfg : WebhookConfig) (parse : List Nat → Option PushPayload)
        (push_result : Except String Unit) (r : WebhookRequest) (p : PushPayload),
        r.path = "/webhook" → r.content_length.getD 0 ≠ 0 → wh_gate_open cfg r →
        utf8Valid r.body = true → parse r.body = some p → r.event ≠ some "push" →
        (∃ m, (wh_do_POST cfg parse push_result r).response = some (200, m)) ∧
        (wh_do_POST cfg parse push_result r).push_processed = false) ∧
    (∀ (cfg : WebhookConfig) (parse : List Nat → Option PushPayload)
        (push_result : Except String Unit) (r : WebhookRequest) (p : PushPayload),
        r.path = "/webhook" → r.content_length.getD 0 ≠ 0 → wh_gate_open cfg r →
        utf8Valid r.body = true → parse r.body = some p → r.event = some "push" →
        p.ref ≠ some ("refs/heads/" ++ cfg.branch) →
        (wh_do_POST cfg parse push_result r).response =
          some (200, "Ignored push to " ++ pyStr p.ref) ∧
        (wh_do_POST cfg parse push_result r).push_processed = false) ∧
    (∀ (cfg : WebhookConfig) (parse : List Nat → Option PushPayload)
        (push_result : Except String Unit) (r : WebhookRequest),
        (∀ hdr, r.signature256 = some hdr → '=' ∈ hdr.data ∧ isAsciiStr hdr = true) →
        utf8Valid r.body = true →
        (wh_do_POST cfg parse push_result r).response.isSome = true) := by
  refine ⟨?_, ?_, ?_, ?_, ?_, ?_, ?_⟩
  · intro cfg parse push_result r hpath hcl hsec hsig
    have h1 : ¬ (r.path ≠ "/webhook") := fun h => h hpath
    unfold wh_do_POST
    rw [if_neg h1, if_neg hcl, if_pos hsec]
    rcases hsig with hsig | hsig
    · rw [hsig]
    · simp [hsig]
  · intro cfg parse push_result r hdr hpath hcl hsec hsig hne hv
    have h1 : ¬ (r.path ≠ "/webhook") := fun h => h hpath
    unfold wh_do_POST
    rw [if_neg h1, if_neg hcl, if_pos hsec]
    simp only [hsig, if_neg hne, hv]
  · intro cfg parse push_result r hpath hcl hgate hutf
    rw [wh_do_POST_gate cfg parse push_result r hpath hcl hgate,
      wh_after_sig_unicode cfg parse push_result r _ hutf]
    exact ⟨rfl, rfl⟩
  · intro cfg parse push_result r hpath hcl hgate hutf hparse
    rw [wh_do_POST_gate cfg parse push_result r hpath hcl hgate]
    unfold wh_do_POST_after_sig
    rw [if_pos hutf, hparse]
    exact ⟨rfl, rfl⟩
  · intro cfg parse push_result r p hpath hcl hgate hutf hparse hev
    rw [wh_do_POST_gate cfg parse push_result r hpath hcl hgate]
    unfold wh_do_POST_after_sig
    rw [if_pos hutf, hparse]
    by_cases hping : r.event = some "ping"
    · simp [hping]
    · simp [if_neg hping, if_neg hev]
  · intro cfg parse push_result r p hpath hcl hgate hutf hparse hev href
    rw [wh_do_POST_gate cfg parse push_result r hpath hcl hgate]
    unfold wh_do_POST_after_sig
    rw [if_pos hutf, hparse]
    simp [hev, href]
  · intro cfg parse push_result r hhdr hutf
    unfold wh_do_POST
    by_cases h1 : r.path ≠ "/webhook"
    · rw [if_pos h1]; rfl
    · rw [if_neg h1]
      by_cases h2 : r.content_length.getD 0 = 0
      · rw [if_pos h2]; rfl
      · rw [if_neg h2]
        by_cases hsec : configured cfg.webhook_secret = true
        · rw [if_pos hsec]
          cases hsig : r.signature256 with
          | none => rfl
          | some hdr =>
            by_cases hhe : hdr = ""
            · simp only [if_pos hhe]; rfl
            · obtain ⟨res, hres⟩ := wh_verify_no_error hdr (hhdr hdr hsig).1
                (hhdr hdr hsig).2 cfg.webhook_secret r.body
              simp only [if_neg hhe, hres]
              cases res with
              | false => rfl
              | true => exact wh_after_sig_response_isSome cfg parse push_result r true hutf
        · rw [if_neg hsec]
          exact wh_after_sig_response_isSome cfg parse push_result r false hutf

/-- Claim C4 (witness): concrete instances of each clause of `C4_theorem` —
missing and empty headers 403; `sha1=` header 403; invalid-UTF-8 body
produces no response; unparseable valid-UTF-8 body 400 with no secret
configured; a non-push event 200; a push to another branch 200; and a
response is produced when the supplied header contains `'='` and is ASCII
with a valid-UTF-8 body. -/
theorem C4_witness :
    wh_do_POST ⟨some "s", "main"⟩ (fun _ => some ⟨some "refs/heads/main"⟩) (.ok ())
      ⟨"/webhook", some 5, [1], none, some "push"⟩ =
      ⟨some (403, "Missing signature header"), false, false, false⟩ ∧
    wh_do_POST ⟨some "s", "main"⟩ (fun _ => some ⟨some "refs/heads/main"⟩) (.ok ())
      ⟨"/webhook", some 5, [1], some "", some "push"⟩ =
      ⟨some (403, "Missing signature header"), false, false, false⟩ ∧
    wh_do_POST ⟨some "s", "main"⟩ (fun _ => some ⟨some "refs/heads/main"⟩) (.ok ())
      ⟨"/webhook", some 5, [1], some "sha1=x", some "push"⟩ =
      ⟨some (403, "Invalid signature"), true, false, false⟩ ∧
    ((wh_do_POST ⟨none, "main"⟩ (fun _ => some ⟨some "refs/heads/main"⟩) (.ok ())
      ⟨"/webhook", some 1, [255], none, some "push"⟩).response = none ∧
      (wh_do_POST ⟨none, "main"⟩ (fun _ => some ⟨some "refs/heads/main"⟩) (.ok ())
        ⟨"/webhook", some 1, [255], none, some "push"⟩).push_processed = false) ∧
    ((wh_do_POST ⟨none, "main"⟩ (fun _ => none) (.ok ())
      ⟨"/webhook", some 5, [1], none, some "push"⟩).response =
        some (400, "Invalid JSON payload") ∧
      (wh_do_POST ⟨none, "main"⟩ (fun _ => none) (.ok ())
        ⟨"/webhook", some 5, [1], none, some "push"⟩).push_processed = false) ∧
    ((∃ m, (wh_do_POST ⟨none, "main"⟩ (fun _ => some ⟨some "refs/heads/main"⟩) (.ok ())
      ⟨"/webhook", some 5, [1], none, some "issues"⟩).response = some (200, m)) ∧
      (wh_do_POST ⟨none, "main"⟩ (fun _ => some ⟨some "refs/heads/main"⟩) (.ok ())
        ⟨"/webhook", some 5, [1], none, some "issues"⟩).push_processed = false) ∧
    ((wh_do_POST ⟨none, "main"⟩ (fun _ => some ⟨some "refs/heads/dev"⟩) (.ok ())
      ⟨"/webhook", some 5, [1], none, some "push"⟩).response =
        some (200, "Ignored push to " ++ pyStr (some "refs/heads/dev")) ∧
      (wh_do_POST ⟨none, "main"⟩ (fun _ => some ⟨some "refs/heads/dev"⟩) (.ok ())
        ⟨"/webhook", some 5, [1], none, some "push"⟩).push_processed = false) ∧
    (wh_do_POST ⟨some "s", "main"⟩ (fun _ => some ⟨some "refs/heads/main"⟩) (.ok ())
      ⟨"/webhook", some 5, [1], some "sha256=bad", some "push"⟩).response.isSome = true := by
  refine ⟨C4_theorem.1 _ _ _ _ rfl (by decide) (by decide) (Or.inl rfl),
          C4_theorem.1 _ _ _ _ rfl (by decide) (by decide) (Or.inr rfl),
          C4_theorem.2.1 _ _ _ _ "sha1=x" rfl (by decide) (by decide) rfl (by decide)
            (by rfl),
          C4_theorem.2.2.1 _ _ _ _ rfl (by decide) (Or.inl rfl) (by decide),
          C4_theorem.2.2.2.1 _ _ _ _ rfl (by decide) (Or.inl rfl) (by decide) rfl,
          C4_theorem.2.2.2.2.1 _ _ _ _ ⟨some "refs/heads/main"⟩ rfl (by decide)
            (Or.inl rfl) (by decide) rfl (by decide),
          C4_theorem.2.2.2.2.2.1 _ _ _ _ ⟨some "refs/heads/dev"⟩ rfl (by decide)
            (Or.inl rfl) (by decide) rfl rfl (by decide),
          C4_theorem.2.2.2.2.2.2 _ _ _ _ ?_ (by decide)⟩
  intro hdr hh
  rw [← Option.some.inj hh]
  exact ⟨by decide, by decide⟩

/-- Claim C10: a POST to `/webhook` whose `Content-Length` header is absent
or `0` is answered `400 "Empty payload"` immediately: signature verification
is not reached, the body is not parsed, and no pipeline run is triggered. -/
theorem C10_theorem :
    ∀ (cfg : WebhookConfig) (parse : List Nat → Option PushPayload)
      (push_result : Except String Unit) (r : WebhookRequest),
      r.path = "/webhook" → (r.content_length = none ∨ r.content_length = some 0) →
      wh_do_POST cfg parse push_result r =
        ⟨some (400, "Empty payload"), false, false, false⟩ := by
  intro cfg parse push_result r hpath hcl
  have h0 : r.content_length.getD 0 = 0 := by rcases hcl with h | h <;> simp [h]
  have h1 : ¬ (r.path ≠ "/webhook") := fun h => h hpath
  unfold wh_do_POST
  rw [if_neg h1, if_pos h0]

/-- Claim C10 (witness): `C10_theorem` at a request with no `Content-Length`
header and at one with `Content-Length: 0` (secret configured, signature
header present, push event — none of which are consulted). -/
theorem C10_witness :
    wh_do_POST ⟨some "s", "main"⟩ (fun _ => some ⟨some "refs/heads/main"⟩) (.ok ())
      ⟨"/webhook", none, [], some "sha256=x", some "push"⟩ =
      ⟨some (400, "Empty payload"), false, false, false⟩ ∧
    wh_do_POST ⟨some "s", "main"⟩ (fun _ => some ⟨some "refs/heads/main"⟩) (.ok ())
      ⟨"/webhook", some 0, [], some "sha256=x", some "push"⟩ =
      ⟨some (400, "Empty payload"), false, false, false⟩ :=
  ⟨C10_theorem _ _ _ _ rfl (Or.inl rfl), C10_theorem _ _ _ _ rfl (Or.inr rfl)⟩

/-- Claim C5: with no webhook secret configured (unset or empty), each
endpoint applies one fixed policy uniformly: `webhook_handler` accepts every
payload (`_verify_signature` returns true for every input — and `do_POST`
skips the gate entirely) while `start_webhook_server` emits the
warning-level line "WEBHOOK_SECRET not set - webhook signatures won't be
verified" at startup; `github_updater`'s handler rejects every payload
(`_verify_signature` returns false for every input).  Neither silently
accepts everything without the warning. -/
theorem C5_theorem :
    ∀ secret : Option String, configured secret = false →
      (∀ (b : List Nat) (hdr : String), wh_verify_signature secret b hdr = .ok true) ∧
      (∀ (token : Option String) (port : Nat),
          ("warning", "WEBHOOK_SECRET not set - webhook signatures won't be verified") ∈
            start_webhook_server_logs secret token port) ∧
      (∀ (b : List Nat) (hdr : String), gu_verify_signature secret b hdr = .ok false) := by
  intro secret hsec
  have hcase : secret = none ∨ secret = some "" := by
    cases secret with
    | none => exact Or.inl rfl
    | some s =>
      refine Or.inr ?_
      simp only [configured, decide_eq_false_iff_not, not_not] at hsec
      rw [hsec]
  refine ⟨?_, ?_, ?_⟩
  · intro b hdr
    rcases hcase with h | h <;> subst h
    · rfl
    · simp [wh_verify_signature]
  · intro token port
    simp [start_webhook_server_logs, hsec]
  · intro b hdr
    rcases hcase with h | h <;> subst h
    · rfl
    · simp [gu_verify_signature]

/-- Claim C5 (witness): `C5_theorem` at `secret = none`: the
`webhook_handler` verifier accepts an arbitrary body/header, the startup
warning is among the logs, and the `github_updater` verifier rejects a
well-formed header. -/
theorem C5_witness :
    wh_verify_signature none [1, 2] "anything" = .ok true ∧
    ("warning", "WEBHOOK_SECRET not set - webhook signatures won't be verified") ∈
      start_webhook_server_logs none (some "tok") 5000 ∧
    gu_verify_signature none [1, 2] "sha256=abc" = .ok false :=
  ⟨(C5_theorem none rfl).1 [1, 2] "anything",
   (C5_theorem none rfl).2.1 (some "tok") 5000,
   (C5_theorem none rfl).2.2 [1, 2] "sha256=abc"⟩

/-- Claim C6 (counterexample): not every sync variant hard-resets —
`github_updater.clone_or_pull_repo` on an existing working copy runs only
`git fetch` and `git pull origin main` (no `reset --hard`, no stash), so
with remote tip `2` and a dirty local state based on commit `1` the working
tree after a successful sync still carries the local modifications and does
not equal the remote tip. -/
theorem C6_counterexample :
    gu_clone_or_pull_repo true "main" = [.fetch, .pull "main"] ∧
    GitCmd.resetHard "main" ∉ gu_clone_or_pull_repo true "main" ∧
    treeMatchesRemote 2 (gitRun 2 (gu_clone_or_pull_repo true "main") ⟨1, true, false⟩) =
      false := by decide

/-- Claim C6 (amended): `polling_service.clone_or_pull_repository` and
`webhook_handler._process_push_event` fetch, checkout and
`reset --hard origin/{branch}`: after them the working tree equals the
remote tip for every starting state, uncommitted modifications discarded.
`github_automator.clone_or_pull_repository` stashes local changes and pulls:
the tree ends at the remote tip but the changes are stashed, not discarded,
and no hard-reset is issued.  `github_updater.clone_or_pull_repo` merely
fetches and pulls: whatever local modifications existed survive, so the tree
matches the remote tip exactly when the state was clean. -/
theorem C6_theorem :
    (∀ (remote : Nat) (s : GitState) (branch : String),
        treeMatchesRemote remote
          (gitRun remote (ps_clone_or_pull_repository true branch) s) = true) ∧
    (∀ branch : String, GitCmd.resetHard branch ∈ ps_clone_or_pull_repository true branch) ∧
    (∀ (remote : Nat) (s : GitState) (branch : String),
        treeMatchesRemote remote
          (gitRun remote (wh_process_push_event_git true branch) s) = true) ∧
    (∀ (remote : Nat) (s : GitState) (branch : String),
        treeMatchesRemote remote (gitRun remote (gu_clone_or_pull_repo true branch) s) =
          !s.localChanges) ∧
    (∀ (remote : Nat) (s : GitState) (cur branch : String),
        (gitRun remote (auto_clone_or_pull_repository true s.localChanges cur branch) s).head =
          remote ∧
        (gitRun remote
            (auto_clone_or_pull_repository true s.localChanges cur branch) s).localChanges =
          false ∧
        GitCmd.resetHard branch ∉
          auto_clone_or_pull_repository true s.localChanges cur branch) := by
  refine ⟨?_, ?_, ?_, ?_, ?_⟩
  · intro remote s branch
    simp [ps_clone_or_pull_repository, gitRun, gitExec, treeMatchesRemote]
  · intro branch
    simp [ps_clone_or_pull_repository]
  · intro remote s branch
    simp [wh_process_push_event_git, gitRun, gitExec, treeMatchesRemote]
  · intro remote s branch
    simp [gu_clone_or_pull_repo, gitRun, gitExec, treeMatchesRemote]
  · intro remote s cur branch
    refine ⟨?_, ?_, ?_⟩ <;>
      (cases hd : s.localChanges <;> by_cases hb : cur ≠ branch <;>
        simp [auto_clone_or_pull_repository, gitRun, gitExec, hd, hb])

/-- Claim C7: on a clean working copy (`git status --porcelain` empty),
`github_automator.commit_and_push_changes` short-circuits to success without
issuing `git commit` or `git push` — but `github_updater.commit_and_push_changes`
performs no status check: it runs `git add . && git commit … && git push …`,
`git commit` exits nonzero on the clean tree, and the function reports
failure (`False`) instead of the claimed "nothing to commit" success. -/
theorem C7_theorem :
    auto_commit_and_push_changes ⟨false, false⟩ = (true, []) ∧
    gu_commit_and_push_changes ⟨false, false⟩ = (false, [.add, .commit]) ∧
    GitCmd.commit ∈ (gu_commit_and_push_changes ⟨false, false⟩).2 ∧
    GitCmd.push ∉ (auto_commit_and_push_changes ⟨false, false⟩).2 := by decide

set_option maxRecDepth 100000 in
/-- Claim C8: the pipeline is not idempotent — the documentation step
`github_automator.update_changelog` does NOT leave an already-updated file
unchanged.  Starting from the file it itself creates, a second run with the
same date grows the file: `content.find("##", unreleased_pos + 1)` matches
the `"##"` prefix of the entry's own `"### Added"` heading (not the next
version heading), so the fresh entry is spliced in before it and the old
`### Added`/`### Fixed` block is duplicated.  A changed file means the
subsequent commit step commits again, so the working-copy SHA changes as
well. -/
theorem C8_theorem :
    auto_update_changelog "2025-04-25" (some (auto_update_changelog "2025-04-25" none)) ≠
      auto_update_changelog "2025-04-25" none ∧
    (auto_update_changelog "2025-04-25"
        (some (auto_update_changelog "2025-04-25" none))).length >
      (auto_update_changelog "2025-04-25" none).length := by decide

/-- Claim C9 (counterexample): a failure of the extension SCAFFOLD step is
not soft — `github_updater.full_update_process` with a successful sync and a
failing `setup_vscode_extension` aborts ("aborting update"): the build,
documentation and commit/push steps never run and the run reports plain
failure. -/
theorem C9_counterexample :
    gu_full_update_process true false true true =
      (false, ["clone_or_pull_repo", "setup_vscode_extension"]) ∧
    "commit_and_push_changes" ∉ (gu_full_update_process true false true true).2 := by
  decide

/-- Claim C9 (amended): after a successful sync, a failure of the extension
BUILD step is soft: `github_updater.full_update_process` logs it and still
runs the commit step, the overall result depending only on the commit step
(reported as plain success when it succeeds — there is no `PartialFailure`
status); `github_automator`'s update mode likewise ignores the build result
and still runs the todo/changelog/commit steps with exit code 0.  A failure
of the scaffold (`setup_vscode_extension`) step, by contrast, aborts
`full_update_process` before build, documentation and commit. -/
theorem C9_theorem :
    (∀ commit_ok : Bool,
        gu_full_update_process true true false commit_ok =
          (commit_ok, ["clone_or_pull_repo", "setup_vscode_extension", "build_extension",
                       "commit_and_push_changes"])) ∧
    (∀ commit_ok : Bool,
        auto_update_mode true false false true commit_ok =
          (0, ["clone_or_pull_repository", "build_vscode_extension", "update_todo_file",
               "update_changelog", "commit_and_push_changes"])) ∧
    (∀ build_ok commit_ok : Bool,
        gu_full_update_process true false build_ok commit_ok =
          (false, ["clone_or_pull_repo", "setup_vscode_extension"])) := by
  refine ⟨?_, ?_, ?_⟩
  · intro c; cases c <;> rfl
  · intro c; cases c <;> rfl
  · intro b c; cases b <;> cases c <;> rfl
